import Mathlib

/-!
Verification of the backup pipeline in `index.js` of node-mongodb-s3-backup.

The source is callback-style JavaScript.  We embed it shallowly:

* node-style callback errors are modelled as `Option Err` (`none` = success,
  `some e` = an `Error` whose message is `e`);
* subprocess argument lists (`mongodump`, `tar`) are Lean `List String`
  values built exactly as the source pushes them;
* the filesystem seen by `removeRF` is the finite set of existing paths,
  modelled as a `List String`; the external `rm -rf` collaborator is
  modelled as removing a path together with everything beneath it;
* `sync` is modelled as a trace of events: which operations were invoked,
  in which order, what was logged at error severity and which error value
  the final user callback received.  The outcome each underlying external
  operation reports through its node callback is an environment parameter
  (`SyncEnv`), since those outcomes are decided outside the program.
-/

/-- Error values carried by node-style callbacks (the `Error` message). -/
abbrev Err := String

/-- JavaScript truthiness of an optional string value: `undefined` and the
empty string are falsy, any other string is truthy.  Used for
`options.username && options.password` and `if (options.authenticationDatabase)`
in `mongoDump`. -/
def truthy : Option String → Bool
  | none => false
  | some s => !(s == "")

/-- The `exit` handler of the `mongodump` child process in `mongoDump`:
`code === 0` resolves with success, anything else resolves with
`new Error("Mongodump exited with code " + code)`. -/
def mongoDumpExit (code : Int) : Option Err :=
  if code = 0 then none else some ("Mongodump exited with code " ++ toString code)

/-- The `exit` handler of the `tar` child process in `compressDirectory`:
`code === 0` resolves with success, anything else resolves with
`new Error("Tar exited with code " + code)`. -/
def tarExit (code : Int) : Option Err :=
  if code = 0 then none else some ("Tar exited with code " ++ toString code)

/-- The MongoDB connection options record consumed by `mongoDump`
(`[host, port, username, password, db]` plus the two optional extras the
code reads). -/
structure MongoOptions where
  host : String
  port : String
  db : String
  username : Option String
  password : Option String
  authenticationDatabase : Option String
  excludeCollection : Option (List String)

/-- The `options.excludeCollection.forEach` loop of `mongoDump`: for each
excluded collection it pushes the flag `--excludeCollection` followed by the
collection name. -/
def exclArgs : List String → List String
  | [] => []
  | c :: rest => "--excludeCollection" :: c :: exclArgs rest

/-- The `mongoOptions` argument list built by `mongoDump options directory`:
the fixed `-h host:port -d db -o directory` part, then `-u`/`-p` only when
*both* username and password are truthy, then the optional
`--authenticationDatabase`, then one `--excludeCollection` pair per entry of
`options.excludeCollection` (any array, even the empty one, is truthy in
JavaScript, so the loop runs whenever the field is present). -/
def mongoDumpArgs (options : MongoOptions) (directory : String) : List String :=
  ["-h", options.host ++ ":" ++ options.port, "-d", options.db, "-o", directory]
  ++ (if truthy options.username && truthy options.password then
        ["-u", options.username.getD "", "-p", options.password.getD ""]
      else [])
  ++ (if truthy options.authenticationDatabase then
        ["--authenticationDatabase", options.authenticationDatabase.getD ""]
      else [])
  ++ (match options.excludeCollection with
      | some cols => exclArgs cols
      | none => [])

/-- `p` lies at or below `target` in the path tree: it is `target` itself or
has `target ++ "/"` as a prefix.  This is the reach of `rm -rf target`. -/
def pathUnder (target p : String) : Bool :=
  p == target || String.isPrefixOf (target ++ "/") p

/-- The external `rm -rf target` collaborator, modelled on the filesystem as
removal of every existing path at or below `target`. -/
def rmRF (target : String) (fs : List String) : List String :=
  fs.filter (fun p => !(pathUnder target p))

/-- `removeRF target` from the source: `fs.exists(target)` first; a missing
path calls back with success immediately and touches nothing; an existing
path is handed to `exec('rm -rf ' + target, callback)`, so both the
filesystem state the external `rm` leaves behind and the exec error it may
report are decided by the collaborator `rm` and propagated to the
callback. -/
def removeRF (rm : String → List String → List String × Option Err)
    (target : String) (fs : List String) : List String × Option Err :=
  if target ∈ fs then rm target fs else (fs, none)

/-- The contract of the external `rm -rf` collaborator: whenever a run
reports success (exit 0), the target no longer exists afterwards. -/
def rmHonest (rm : String → List String → List String × Option Err) : Prop :=
  ∀ target fs, (rm target fs).2 = none → target ∉ (rm target fs).1

/-- The well-behaved `rm -rf` run: removes everything at or below the
target and exits 0. -/
def rmTotal (target : String) (fs : List String) : List String × Option Err :=
  (rmRF target fs, none)

/-- A possible misbehaving run of the external `rm -rf`: while the child
entry `target/b` is still present it removes only that entry, hits an I/O
error and exits non-zero (leaving the target itself behind); once the child
is gone a run succeeds and removes the target. -/
def rmFlaky (target : String) (fs : List String) : List String × Option Err :=
  if (target ++ "/b") ∈ fs then
    (fs.filter (fun p => !(p == target ++ "/b")), some "EIO")
  else
    (rmRF target fs, none)

/-- `path.join` as used by `sendToS3`, for the simple two-segment joins the
source performs (no `..`/`.` normalisation is ever needed there). -/
def pathJoin (a b : String) : String :=
  if a == "" then b else if String.endsWith a "/" then a ++ b else a ++ "/" ++ b

/-- The s3 options record consumed by `sendToS3` (`[key, secret, bucket]`
plus the optional `destination` prefix and the `encrypt` flag). -/
structure S3Options where
  key : String
  secret : String
  bucket : String
  destination : Option String
  encrypt : Bool

/-- The request `sendToS3` hands to the `knox-mpu` `MultiPartUpload`
constructor. -/
structure MultiPartUpload where
  objectName : String
  headers : List (String × String)
  file : String
  partSize : Nat
  maxRetries : Nat

/-- `sendToS3 options directory target` from the source.  It reads
`options.destination || '/'` into a local, then executes
`delete options.destination` on the *caller's* options object before
creating the knox client; the function returns the mutated options object
together with the upload request it builds. -/
def sendToS3 (options : S3Options) (directory target : String) :
    S3Options × MultiPartUpload :=
  let sourceFile := pathJoin directory target
  let destination :=
    match options.destination with
    | some d => if d == "" then "/" else d
    | none => "/"
  let options' : S3Options := { options with destination := none }
  let headers :=
    if options'.encrypt then [("x-amz-server-side-encryption", "AES256")] else []
  (options',
   { objectName := pathJoin destination target
     headers := headers
     file := sourceFile
     partSize := 10485760
     maxRetries := 2 })

/-- `exclArgs` emits exactly one flag/value pair per collection, in input
order. -/
theorem exclArgs_eq_join (cols : List String) :
    exclArgs cols = (cols.map (fun c => ["--excludeCollection", c])).flatten := by
  induction cols with
  | nil => rfl
  | cons c rest ih => simp [exclArgs, ih]

/-- A path removed by `rm -rf target` is gone; in particular `target`
itself no longer exists afterwards. -/
theorem target_not_mem_rmRF (target : String) (fs : List String) :
    target ∉ rmRF target fs := by
  intro h
  have h' := (List.mem_filter.mp h).2
  simp [pathUnder] at h'

/-- An absent optional string is falsy. -/
theorem truthy_none : truthy none = false := rfl

/-- C8: for both external process invocations (the `mongodump` exit handler
of the dump stage and the `tar` exit handler of the compress stage), the
stage resolves successfully iff the process exits with status 0, and any
non-zero exit resolves with an error message carrying that exit code. -/
theorem exit_code_zero_iff_success (code : Int) :
    (mongoDumpExit code = none ↔ code = 0)
    ∧ (tarExit code = none ↔ code = 0)
    ∧ (code ≠ 0 →
        mongoDumpExit code = some ("Mongodump exited with code " ++ toString code)
        ∧ tarExit code = some ("Tar exited with code " ++ toString code)) := by
  by_cases h : code = 0 <;> simp [mongoDumpExit, tarExit, h]

/-- Witness for `exit_code_zero_iff_success` at exit code 2. -/
theorem exit_code_zero_iff_success_witness :
    mongoDumpExit 2 = some ("Mongodump exited with code " ++ toString (2 : Int))
    ∧ tarExit 2 = some ("Tar exited with code " ++ toString (2 : Int)) :=
  (exit_code_zero_iff_success 2).2.2 (by decide)

/-- C9: the `mongodump` argument list contains exactly one
`--excludeCollection` flag/value pair per excluded collection, in input
order, after the fixed connection part; an absent or empty exclusion list
contributes no pairs, and `["a", "b", "c"]` contributes exactly three pairs
in that order. -/
theorem mongoDump_exclusion_flags (host port db dir : String) (cols : List String) :
    mongoDumpArgs ⟨host, port, db, none, none, none, some cols⟩ dir
      = ["-h", host ++ ":" ++ port, "-d", db, "-o", dir]
        ++ (cols.map (fun c => ["--excludeCollection", c])).flatten
    ∧ mongoDumpArgs ⟨host, port, db, none, none, none, none⟩ dir
      = ["-h", host ++ ":" ++ port, "-d", db, "-o", dir]
    ∧ mongoDumpArgs ⟨host, port, db, none, none, none, some []⟩ dir
      = ["-h", host ++ ":" ++ port, "-d", db, "-o", dir]
    ∧ mongoDumpArgs ⟨host, port, db, none, none, none, some ["a", "b", "c"]⟩ dir
      = ["-h", host ++ ":" ++ port, "-d", db, "-o", dir,
         "--excludeCollection", "a", "--excludeCollection", "b",
         "--excludeCollection", "c"] := by
  refine ⟨?_, ?_, ?_, ?_⟩ <;>
    simp [mongoDumpArgs, truthy, exclArgs_eq_join, exclArgs]

/-- C5 (counterexample): with only a username (`some "alice"`) and no
password, the credential is *not* passed through into the argument list:
neither `-u` nor `"alice"` appears. -/
theorem lone_credential_not_passed_cex :
    "alice" ∉ mongoDumpArgs
        ⟨"localhost", "27017", "mydb", some "alice", none, none, none⟩ "/tmp/dir"
    ∧ "-u" ∉ mongoDumpArgs
        ⟨"localhost", "27017", "mydb", some "alice", none, none, none⟩ "/tmp/dir" := by
  constructor <;> decide

/-- C5 (amended): when both username and password are truthy the argument
list carries the `-u username` pair immediately followed by the
`-p password` pair; in every other case — both absent *or* exactly one of
the two present — no credential flags are emitted at all (a lone credential
is dropped, not passed through). -/
theorem mongoDump_credential_flags (host port db dir : String)
    (u p : Option String) :
    ((truthy u && truthy p) = true →
       mongoDumpArgs ⟨host, port, db, u, p, none, none⟩ dir
         = ["-h", host ++ ":" ++ port, "-d", db, "-o", dir,
            "-u", u.getD "", "-p", p.getD ""])
    ∧ ((truthy u && truthy p) = false →
       mongoDumpArgs ⟨host, port, db, u, p, none, none⟩ dir
         = ["-h", host ++ ":" ++ port, "-d", db, "-o", dir]) := by
  constructor <;> intro h <;> simp [mongoDumpArgs, h, truthy_none]

/-- Witness for `mongoDump_credential_flags`: the both-present case at
`alice`/`hunter2` and the username-only case at `alice`. -/
theorem mongoDump_credential_flags_witness :
    mongoDumpArgs ⟨"h", "27017", "db0", some "alice", some "hunter2", none, none⟩ "/tmp/dir"
      = ["-h", "h" ++ ":" ++ "27017", "-d", "db0", "-o", "/tmp/dir",
         "-u", (some "alice").getD "", "-p", (some "hunter2").getD ""]
    ∧ mongoDumpArgs ⟨"h", "27017", "db0", some "alice", none, none, none⟩ "/tmp/dir"
      = ["-h", "h" ++ ":" ++ "27017", "-d", "db0", "-o", "/tmp/dir"] :=
  ⟨(mongoDump_credential_flags "h" "27017" "db0" "/tmp/dir"
      (some "alice") (some "hunter2")).1 (by decide),
   (mongoDump_credential_flags "h" "27017" "db0" "/tmp/dir"
      (some "alice") none).2 (by decide)⟩

/-- The well-behaved `rm -rf` run honours the collaborator contract. -/
theorem rmTotal_honest : rmHonest rmTotal := by
  intro target fs _
  simpa [rmTotal] using target_not_mem_rmRF target fs

/-- C7 (counterexample): idempotence is not unconditional.  Under a
possible run of the external `rm -rf` (`rmFlaky`), the first invocation of
`removeRF` on `/a` over `["/a", "/a/b"]` fails with `EIO` and leaves `/a`
behind, and the second invocation on the very same path then re-runs
`rm -rf` and removes `/a` — a filesystem change beyond the first
invocation. -/
theorem removeRF_repeat_after_failure_cex :
    removeRF rmFlaky "/a" ["/a", "/a/b"] = (["/a"], some "EIO")
    ∧ removeRF rmFlaky "/a" (removeRF rmFlaky "/a" ["/a", "/a/b"]).1 = ([], none)
    ∧ (removeRF rmFlaky "/a" (removeRF rmFlaky "/a" ["/a", "/a/b"]).1).1
        ≠ (removeRF rmFlaky "/a" ["/a", "/a/b"]).1 := by
  refine ⟨by decide, by decide, by decide⟩

/-- C7 (amended): `removeRF` on a path that does not exist resolves as
success and leaves the filesystem untouched; and, for any external `rm -rf`
collaborator satisfying its contract (success means the target is gone),
once an invocation has resolved without error a further invocation on the
same path is a successful no-op — idempotence holds from the first
*successful* removal on, not after a failed one. -/
theorem removeRF_idempotent (rm : String → List String → List String × Option Err)
    (hrm : rmHonest rm) (target : String) (fs : List String) :
    (target ∉ fs → removeRF rm target fs = (fs, none))
    ∧ ((removeRF rm target fs).2 = none →
        removeRF rm target (removeRF rm target fs).1
          = ((removeRF rm target fs).1, none)) := by
  constructor
  · intro h
    simp [removeRF, h]
  · intro hok
    by_cases h : target ∈ fs
    · have heq : removeRF rm target fs = rm target fs := by simp [removeRF, h]
      rw [heq] at hok ⊢
      have hgone := hrm target fs hok
      simp [removeRF, hgone]
    · have heq : removeRF rm target fs = (fs, none) := by simp [removeRF, h]
      rw [heq]
      simp [removeRF, h]

/-- Witness for `removeRF_idempotent` with the well-behaved `rm -rf`, at a
missing path and after a successful first removal. -/
theorem removeRF_idempotent_witness :
    removeRF rmTotal "/tmp/a" ["/tmp/b"] = (["/tmp/b"], none)
    ∧ removeRF rmTotal "/tmp/a" (removeRF rmTotal "/tmp/a" ["/tmp/b"]).1
        = ((removeRF rmTotal "/tmp/a" ["/tmp/b"]).1, none) :=
  ⟨(removeRF_idempotent rmTotal rmTotal_honest "/tmp/a" ["/tmp/b"]).1 (by decide),
   (removeRF_idempotent rmTotal rmTotal_honest "/tmp/a" ["/tmp/b"]).2 (by decide)⟩

/-- C10: `sendToS3` deletes `destination` from the caller's options object
(the returned object has no `destination`); the first call uploads under
the configured prefix, and a second call reusing the returned object
uploads under the default root prefix `/`. -/
theorem sendToS3_deletes_destination (options : S3Options)
    (directory target d : String) :
    ((sendToS3 options directory target).1).destination = none
    ∧ (sendToS3 (sendToS3 options directory target).1 directory target).2.objectName
        = pathJoin "/" target
    ∧ (sendToS3 { options with destination := some d } directory target).2.objectName
        = pathJoin (if d == "" then "/" else d) target
    ∧ (sendToS3 { options with destination := some "backups" } directory target).2.objectName
        = pathJoin "backups" target := by
  refine ⟨rfl, rfl, rfl, ?_⟩
  simp [sendToS3]

/-- Observable events of one `sync` job: which underlying operation was
invoked (in trace order), what was logged at error severity by the main
series callback, which error value the user callback received, and which
error the domain handler rethrew.  The two cleanup phases invoke the very
same `tmpDirCleanupFns` — `removeRF backupDir` and
`removeRF (path.join tmpDir archiveName)` — once before the stages and once
after; the labels record in which phase the invocation happened. -/
inductive Ev where
  | preCleanBackupDir
  | preCleanArchive
  | ranDump
  | ranCompress
  | ranUpload
  | postCleanBackupDir
  | postCleanArchive
  | logErr (e : Err)
  | logOk
  | callback (err : Option Err)
  | escalate (e : Err)
  deriving DecidableEq, Repr

/-- The outcome each external operation would report through its node
callback if invoked: the two pre-clean removals, the three stages, and the
two post-clean removals (the same two removal thunks run again, against
whatever filesystem state is left, so their outcomes are independent
parameters). -/
structure SyncEnv where
  preCleanDir : Option Err
  preCleanFile : Option Err
  dump : Option Err
  compress : Option Err
  upload : Option Err
  postCleanDir : Option Err
  postCleanFile : Option Err

/-- `async.series`: run the labelled tasks in order, stopping at the first
one whose callback reports an error; return the labels of the tasks that
were invoked and the first error (`none` when all succeeded). -/
def seriesRun {α : Type} : List (α × Option Err) → List α × Option Err
  | [] => ([], none)
  | (l, o) :: rest =>
    match o with
    | some e => ([l], some e)
    | none =>
      let r := seriesRun rest
      (l :: r.1, r.2)

/-- The task list of the main `async.series` call in `sync`:
`tmpDirCleanupFns.concat([mongoDump …, compressDirectory …, d.bind(sendToS3 …)])`. -/
def mainTasks (env : SyncEnv) : List (Ev × Option Err) :=
  [(Ev.preCleanBackupDir, env.preCleanDir), (Ev.preCleanArchive, env.preCleanFile),
   (Ev.ranDump, env.dump), (Ev.ranCompress, env.compress), (Ev.ranUpload, env.upload)]

/-- The task list of the cleanup `async.series` calls (`tmpDirCleanupFns`
run again after the stages). -/
def postTasks (env : SyncEnv) : List (Ev × Option Err) :=
  [(Ev.postCleanBackupDir, env.postCleanDir), (Ev.postCleanArchive, env.postCleanFile)]

/-- The event trace of one `sync` job along the normal path: the main
series (pre-clean plus the three stages, aborting at the first error), then
its final callback, which logs the error (or the success message), runs
`tmpDirCleanupFns` again in a second `async.series` whose own error is
ignored, and finally calls the user callback with the main series error. -/
def sync (env : SyncEnv) : List Ev :=
  let main := seriesRun (mainTasks env)
  let logEv := match main.2 with
    | some e => Ev.logErr e
    | none => Ev.logOk
  let post := seriesRun (postTasks env)
  main.1 ++ logEv :: (post.1 ++ [Ev.callback main.2])

/-- The error the main series of `sync` resolves with: the first error of
pre-clean / dump / compress / upload, and the value later handed to the
user callback. -/
def jobErr (env : SyncEnv) : Option Err :=
  (seriesRun (mainTasks env)).2

/-- The portion of the `sync` trace produced by the main series and its
logging, before cleanup starts. -/
def stageTrace (env : SyncEnv) : List Ev :=
  (seriesRun (mainTasks env)).1
  ++ [match (seriesRun (mainTasks env)).2 with
      | some e => Ev.logErr e
      | none => Ev.logOk]

/-- The portion of the `sync` trace produced by the post-clean series. -/
def postTrace (env : SyncEnv) : List Ev :=
  (seriesRun (postTasks env)).1

/-- The `d.on('error', …)` handler of `sync`: on an error `e` that escaped
the upload stage through the domain, it exits the domain, runs
`tmpDirCleanupFns` in an `async.series`, and from that series' final
callback rethrows `e`.  The user callback is never invoked on this path. -/
def domainOnError (env : SyncEnv) (e : Err) : List Ev :=
  (seriesRun (postTasks env)).1 ++ [Ev.escalate e]

/-- Classifier: post-clean removal events. -/
def isPostCleanEv : Ev → Bool
  | Ev.postCleanBackupDir => true
  | Ev.postCleanArchive => true
  | _ => false

/-- Classifier: the user-callback event. -/
def isCallbackEv : Ev → Bool
  | Ev.callback _ => true
  | _ => false

/-- Classifier: stage events (dump / compress / upload invocations). -/
def isStageEv : Ev → Bool
  | Ev.ranDump => true
  | Ev.ranCompress => true
  | Ev.ranUpload => true
  | _ => false

/-- Classifier: error-severity log events. -/
def isLogErrEv : Ev → Bool
  | Ev.logErr _ => true
  | _ => false

/-- An environment in which every external operation succeeds. -/
def envAllOk : SyncEnv :=
  ⟨none, none, none, none, none, none, none⟩

/-- An environment in which only the first pre-clean removal fails. -/
def envPreFail : SyncEnv :=
  ⟨some "EACCES", none, none, none, none, none, none⟩

/-- An environment in which all stages succeed and only the first
post-clean removal fails. -/
def envPostFail : SyncEnv :=
  ⟨none, none, none, none, none, some "EPERM", none⟩

/-- C1: whatever the outcome of the staged sequence, the `sync` trace is
the staged part, then the post-clean attempt, then the user callback: the
removal of the CleanupSet is attempted after the staged sequence ends
(starting with the scratch backup directory, followed by the archive path
when the first removal succeeded), the staged part contains no cleanup or
callback event, and the callback — carrying the staged-sequence error — is
the one and only callback event and comes after the cleanup attempt. -/
theorem sync_postclean_before_callback (env : SyncEnv) :
    sync env = stageTrace env ++ postTrace env ++ [Ev.callback (jobErr env)]
    ∧ postTrace env = Ev.postCleanBackupDir ::
        (if env.postCleanDir = none then [Ev.postCleanArchive] else [])
    ∧ (stageTrace env).all (fun e => !(isPostCleanEv e) && !(isCallbackEv e)) = true
    ∧ (postTrace env).all isPostCleanEv = true := by
  obtain ⟨p1, p2, du, co, up, q1, q2⟩ := env
  cases p1 <;> cases p2 <;> cases du <;> cases co <;> cases up <;> cases q1 <;> cases q2 <;>
    simp [sync, stageTrace, postTrace, jobErr, seriesRun, mainTasks, postTasks,
      isPostCleanEv, isCallbackEv]

/-- C2: on an error that surfaces asynchronously from the upload stage
through the domain, the handler runs the CleanupSet removal first and then
rethrows exactly the original error as its last action; no user-callback
event ever occurs on this path, so the error is neither delivered through
the job's normal callback nor silently dropped. -/
theorem domain_error_cleanup_then_escalate (env : SyncEnv) (e : Err) :
    domainOnError env e = postTrace env ++ [Ev.escalate e]
    ∧ Ev.postCleanBackupDir ∈ postTrace env
    ∧ (domainOnError env e).all (fun ev => !(isCallbackEv ev)) = true
    ∧ (domainOnError env e).getLast? = some (Ev.escalate e) := by
  obtain ⟨p1, p2, du, co, up, q1, q2⟩ := env
  cases q1 <;> cases q2 <;>
    simp [domainOnError, postTrace, seriesRun, postTasks, isCallbackEv]

/-- C3 (counterexample): when every stage succeeds and the post-clean
removal of the backup directory fails (`envPostFail`), the failure is
neither logged at error severity nor reported: the trace contains no
error-log event and the user callback receives `none`, not the cleanup
error. -/
theorem postclean_failure_not_reported_cex :
    (sync envPostFail).getLast? = some (Ev.callback none)
    ∧ (sync envPostFail).all (fun e => !(isLogErrEv e)) = true := by
  constructor <;> decide

/-- C3 (amended): a filesystem-removal failure during post-clean never
overrides an earlier stage error — the user callback always receives the
staged-sequence error, the first error among pre-clean, dump, compress and
upload, regardless of the post-clean outcomes — but it is itself neither
logged nor reported: the only error-severity log event the trace can
contain is the staged-sequence error, and when the staged sequence
succeeded the job reports success even if post-clean failed. -/
theorem postclean_failure_never_overrides (env : SyncEnv) :
    (sync env).getLast? = some (Ev.callback (jobErr env))
    ∧ jobErr env = ([env.preCleanDir, env.preCleanFile, env.dump,
        env.compress, env.upload].filterMap id).head?
    ∧ (sync env).filter isLogErrEv
        = (match jobErr env with
           | some e => [Ev.logErr e]
           | none => []) := by
  obtain ⟨p1, p2, du, co, up, q1, q2⟩ := env
  cases p1 <;> cases p2 <;> cases du <;> cases co <;> cases up <;> cases q1 <;> cases q2 <;>
    simp [sync, jobErr, seriesRun, mainTasks, postTasks, isLogErrEv]

/-- C4: compress is invoked only if dump was invoked and resolved
successfully, upload only if compress was invoked and resolved
successfully; the stage events of any trace form a prefix of
dump-then-compress-then-upload (strict order, no skip, no reorder, at most
once each, and nothing runs past the first failing stage); and the job's
final resolution is the first error encountered in the series — at most
one error value. -/
theorem stage_order_abort_first_failure (env : SyncEnv) :
    (Ev.ranCompress ∈ sync env → env.dump = none ∧ Ev.ranDump ∈ sync env)
    ∧ (Ev.ranUpload ∈ sync env → env.compress = none ∧ Ev.ranCompress ∈ sync env)
    ∧ ((sync env).filter isStageEv).isPrefixOf
        [Ev.ranDump, Ev.ranCompress, Ev.ranUpload] = true
    ∧ jobErr env = ([env.preCleanDir, env.preCleanFile, env.dump,
        env.compress, env.upload].filterMap id).head? := by
  obtain ⟨p1, p2, du, co, up, q1, q2⟩ := env
  cases p1 <;> cases p2 <;> cases du <;> cases co <;> cases up <;> cases q1 <;> cases q2 <;>
    simp [sync, jobErr, seriesRun, mainTasks, postTasks, isStageEv, List.isPrefixOf]

/-- Witness for `stage_order_abort_first_failure` in the all-success
environment, where compress and upload do run. -/
theorem stage_order_abort_first_failure_witness :
    (envAllOk.dump = none ∧ Ev.ranDump ∈ sync envAllOk)
    ∧ (envAllOk.compress = none ∧ Ev.ranCompress ∈ sync envAllOk) :=
  ⟨(stage_order_abort_first_failure envAllOk).1 (by decide),
   (stage_order_abort_first_failure envAllOk).2.1 (by decide)⟩

/-- C6 (counterexample): when the first pre-clean removal fails
(`envPreFail`), the pipeline does *not* proceed to the dump stage — the
pre-clean failure aborts the whole staged sequence and becomes the job's
reported error. -/
theorem preclean_failure_aborts_cex :
    Ev.ranDump ∉ sync envPreFail ∧ jobErr envPreFail = some "EACCES" := by
  constructor <;> decide

/-- C6 (amended): pre-clean is *not* best-effort: the pre-clean removals
run in the same `async.series` as the stages, so a failure while removing
the stale scratch directory (or, when that succeeded, the stale archive)
aborts the job — dump never runs, the pre-clean error becomes the job's
reported error — though post-clean still runs before the callback. -/
theorem preclean_failure_aborts (env : SyncEnv) (e : Err) :
    (env.preCleanDir = some e →
       Ev.ranDump ∉ sync env ∧ jobErr env = some e
       ∧ Ev.postCleanBackupDir ∈ sync env)
    ∧ (env.preCleanDir = none → env.preCleanFile = some e →
       Ev.ranDump ∉ sync env ∧ jobErr env = some e
       ∧ Ev.postCleanBackupDir ∈ sync env) := by
  obtain ⟨p1, p2, du, co, up, q1, q2⟩ := env
  constructor
  · intro h
    simp only at h
    subst h
    cases q1 <;> cases q2 <;>
      simp [sync, jobErr, seriesRun, mainTasks, postTasks]
  · intro h1 h2
    simp only at h1 h2
    subst h1; subst h2
    cases q1 <;> cases q2 <;>
      simp [sync, jobErr, seriesRun, mainTasks, postTasks]

/-- Witness for `preclean_failure_aborts` at `envPreFail`. -/
theorem preclean_failure_aborts_witness :
    Ev.ranDump ∉ sync envPreFail ∧ jobErr envPreFail = some "EACCES"
    ∧ Ev.postCleanBackupDir ∈ sync envPreFail :=
  (preclean_failure_aborts envPreFail "EACCES").1 (by decide)
